import Mathlib

/-!
Shallow embedding of the ASAT order validator (src/script/main.py).

The decision core of the script is modelled here:

* `check_error_in_history`      — main.py lines 228-260
* `check_credit_memo_in_history`— main.py lines 263-276
* `validate_revenue_model_rules`— main.py lines 279-309
* `clean_article_id` / `get_multiple_orders` — main.py lines 198-225
* `validate_order` (with its V041 branch and revenue-model stage)
                                — main.py lines 312-557
* `counted_as_blocked` / `counted_as_query_error` — the batch summary
  classification of main.py lines 877-879 and `display_resendable_orders`
  lines 640-641.

Modelling conventions: Python strings are Lean `String` (the script only
handles ASCII event texts; `pyLower` lowers ASCII letters like
`str.lower` does there); missing JSON keys are `Option.none`; JSON
sections are records holding only the keys the script reads; a falsy
JSON response (`None` or `{}`) from a fetch is the oracle answering
`none`; the charged amount, only ever compared to `0`, is an `Int`.
Network access is an oracle record `Gateway` passed explicitly.
-/

/-- Python substring test: `hasPrefixChars n h` is true iff `n` is a
prefix of `h` (character by character). -/
def hasPrefixChars : List Char → List Char → Bool
  | [], _ => true
  | _ :: _, [] => false
  | n :: ns, h :: hs => n == h && hasPrefixChars ns hs

/-- `containsChars h n` is Python `n in h` on character lists: `n`
occurs contiguously somewhere in `h`. -/
def containsChars (haystack needle : List Char) : Bool :=
  hasPrefixChars needle haystack ||
    match haystack with
    | [] => false
    | _ :: t => containsChars t needle

/-- Python `needle in haystack` on strings. -/
def pyContains (haystack needle : String) : Bool :=
  containsChars haystack.toList needle.toList

/-- Python `str.lower` restricted to ASCII, which is all the script's
event texts use. -/
def pyLower (s : String) : String :=
  String.mk (s.toList.map Char.toLower)

/-- Python `str.strip`, on the ASCII whitespace the inputs contain. -/
def pyStrip (s : String) : String :=
  String.mk (((s.toList.dropWhile Char.isWhitespace).reverse.dropWhile
    Char.isWhitespace).reverse)

/-- Python `s.split(sep)[0]`: the text before the first colon when `sep`
is a colon (the whole string when there is none). -/
def beforeColon (s : String) : String :=
  String.mk (s.toList.takeWhile (fun c => c != ':'))

/-- Python `str(x)` for an optional string: `None` renders as
`"None"`. -/
def pyStr : Option String → String
  | none => "None"
  | some s => s

/-- Python truthiness of an optional string: `None` and `""` are
falsy. -/
def pyTruthy : Option String → Bool
  | none => false
  | some s => s != ""

/-- Python `x or d` for an optional string `x` and default `d`:
the default is taken when `x` is `None` or empty. -/
def pyOr (x : Option String) (d : String) : String :=
  match x with
  | none => d
  | some s => if s = "" then d else s

/-- One entry of an order's `orderHistory` (an event dict; the script
reads `eventType` and `eventDescription` with default `""`; non-dict
entries, which the script skips, are not representable and hence
omitted from a modelled history). -/
structure Event where
  eventType : String := ""
  eventDescription : String := ""
deriving DecidableEq

/-- main.py lines 248-257: the `error_code` computed from a matching
event's description: `"V041"` when the description contains that token,
else the stripped text before the first colon when the description
contains a colon and that stripped text is shorter than 10 characters,
else no code. -/
def v041_or_colon_code (event_desc : String) : Option String :=
  if pyContains event_desc "V041" then some "V041"
  else if pyContains event_desc ":" then
    let potential_code := pyStrip (beforeColon event_desc)
    if potential_code.length < 10 then some potential_code else none
  else none

/-- main.py lines 228-260 `check_error_in_history`: scan the history in
order; the first event whose type contains `"Error"` or contains
`"error"` after lowering is authoritative and yields
`(true, code, description)`; no match yields `(false, none, none)`. -/
def check_error_in_history : List Event → Bool × Option String × Option String
  | [] => (false, none, none)
  | event :: rest =>
    if pyContains event.eventType "Error" ||
        pyContains (pyLower event.eventType) "error" then
      (true, v041_or_colon_code event.eventDescription,
        some event.eventDescription)
    else
      check_error_in_history rest

/-- main.py lines 263-276 `check_credit_memo_in_history`: true iff some
event's type contains `"Credit memo created"`. -/
def check_credit_memo_in_history (order_history : List Event) : Bool :=
  order_history.any (fun event => pyContains event.eventType "Credit memo created")

/-- main.py lines 279-309 `validate_revenue_model_rules`. -/
def validate_revenue_model_rules (revenue_model : String)
    (payment_method : String) (total_charged : Int) : Bool × String :=
  if revenue_model = "OO" then
    if total_charged = 0 then
      (false, "OO with totalChargedAmount = 0")
    else
      (true, "OO with totalChargedAmount > 0 ($" ++ toString total_charged ++ ")")
  else if revenue_model = "OA" then
    if payment_method = "Invoice" then
      if total_charged = 0 then
        (false, "OA + Invoice with totalChargedAmount = 0")
      else
        (true, "OA + Invoice with totalChargedAmount > 0 ($" ++ toString total_charged ++ ")")
    else
      (true, "OA + " ++ payment_method ++ " (regardless of totalChargedAmount)")
  else
    (true, "Revenue Model " ++ revenue_model)

/-- main.py lines 200-201: `article_id.replace("PD", "") if article_id
else article_id` — Python `str.replace` removes every non-overlapping
occurrence of `"PD"`, scanning left to right. -/
def removePD : List Char → List Char
  | [] => []
  | 'P' :: 'D' :: rest => removePD rest
  | c :: rest => c :: removePD rest

/-- main.py lines 198-204: the id actually used in the sibling-orders
query URL. -/
def clean_article_id (article_id : String) : String :=
  if article_id = "" then article_id
  else String.mk (removePD article_id.toList)

/-- The `orderDetails` section of an order response (the script reads
`orderStatus` and `orderHistory`, the latter defaulting to `[]`). -/
structure OrderDetailsSection where
  orderStatus : Option String := none
  orderHistory : List Event := []
deriving DecidableEq

/-- The `article` section (the script reads `id` and `doi`). -/
structure ArticleSection where
  id : Option String := none
  doi : Option String := none
deriving DecidableEq

/-- The `journal` section of an order response (the script reads
`name`). -/
structure JournalSection where
  name : Option String := none
deriving DecidableEq

/-- The `paymentDetails` section (the script reads `paymentMethod`, and
`totalChargedAmount` with default `0`). -/
structure PaymentSection where
  paymentMethod : Option String := none
  totalChargedAmount : Option Int := none
deriving DecidableEq

/-- A full order response, as read by `validate_order`
(main.py lines 343-369). -/
structure OrderData where
  orderDetails : Option OrderDetailsSection := none
  article : Option ArticleSection := none
  journal : Option JournalSection := none
  paymentDetails : Option PaymentSection := none
deriving DecidableEq

/-- One element of the sibling-order payload (the script reads
`orderUniqueId`, `orderStatus`, and `inCancelledState` with default
`False`). -/
structure SiblingOrder where
  orderUniqueId : Option String := none
  orderStatus : Option String := none
  inCancelledState : Bool := false
deriving DecidableEq

/-- The `journal` section of a product-details response (the script
reads `revenueModel`). -/
structure ProductJournal where
  revenueModel : Option String := none
deriving DecidableEq

/-- A product-details response (main.py lines 526-528). -/
structure ProductData where
  journal : Option ProductJournal := none
deriving DecidableEq

/-- The remote endpoints as an oracle: `get_order_details` and
`get_product_details` answer `none` for an unreachable call or a falsy
body (main.py lines 170-195); `fetch_orders_payload` is the
multiple-orders endpoint keyed by the cleaned article id, answering the
`payload` list, or `[]` on any failure (main.py lines 206-225). -/
structure Gateway where
  get_order_details : String → Option OrderData
  get_product_details : String → Option ProductData
  fetch_orders_payload : String → List SiblingOrder

/-- main.py lines 198-225 `get_multiple_orders`: strip `"PD"` from the
article id, then query the multiple-orders endpoint. -/
def get_multiple_orders (gw : Gateway) (article_id : String) : List SiblingOrder :=
  gw.fetch_orders_payload (clean_article_id article_id)

/-- The fields of the script's `OrderResult` dataclass (main.py lines
86-127) that the decision logic touches; `context` and the resend
fields, written only by later I/O stages, are omitted. -/
structure OrderResult where
  order_id : String
  article_id : Option String := none
  order_status : Option String := none
  payment_method : Option String := none
  total_charged : Option Int := none
  journal_name : Option String := none
  revenue_model : Option String := none
  article_doi : Option String := none
  has_error : Bool := false
  error_code : Option String := none
  error_description : Option String := none
  is_v041_error : Bool := false
  other_orders : List SiblingOrder := []
  other_orders_not_canceled : Nat := 0
  canceled_order_has_credit_memo : Option Bool := none
  can_resend : Bool := false
  validation_reason : String := ""
  validation_step : String := ""
  error : Option String := none
deriving DecidableEq

/-- main.py lines 343-369: after a successful fetch with an
`orderDetails` section, copy the basic fields into the result (each
optional section contributes its fields only when present). -/
def populate (r : OrderResult) (d : OrderData) (od : OrderDetailsSection) :
    OrderResult :=
  { r with
    order_status := od.orderStatus
    article_id := match d.article with | some a => a.id | none => r.article_id
    article_doi := match d.article with | some a => a.doi | none => r.article_doi
    journal_name := match d.journal with | some j => j.name | none => r.journal_name
    payment_method := match d.paymentDetails with
      | some p => p.paymentMethod
      | none => r.payment_method
    total_charged := match d.paymentDetails with
      | some p => some (p.totalChargedAmount.getD 0)
      | none => r.total_charged }

/-- main.py lines 423-427: the not-canceled sibling filter — the id
differs from the current order id under `str` comparison, and (the
status is not the canceled status, or the explicit `inCancelledState`
flag is not set). -/
def not_canceled_filter (order_id : String) (o : SiblingOrder) : Bool :=
  pyStr o.orderUniqueId != order_id &&
    (o.orderStatus != some "OrderCanceledInAMP" || !o.inCancelledState)

/-- main.py lines 442-446: the canceled sibling filter — the id differs
from the current order id and the status equals the canceled status. -/
def canceled_filter (order_id : String) (o : SiblingOrder) : Bool :=
  pyStr o.orderUniqueId != order_id &&
    o.orderStatus == some "OrderCanceledInAMP"

/-- main.py lines 461-477, one iteration of the credit-memo loop: a
canceled sibling contributes a credit memo iff its id is truthy, its own
order fetch answers data with an `orderDetails` section, and that
history contains a credit-memo event; otherwise it is skipped. -/
def sibling_has_credit_memo (gw : Gateway) (o : SiblingOrder) : Bool :=
  if pyTruthy o.orderUniqueId then
    match gw.get_order_details (pyStr o.orderUniqueId) with
    | some canceled_data =>
      match canceled_data.orderDetails with
      | some od => check_credit_memo_in_history od.orderHistory
      | none => false
    | none => false
  else false

/-- main.py lines 505-556, RULE 3: the revenue-model stage, applied to
the result accumulated so far. -/
def revenue_stage (gw : Gateway) (result : OrderResult) : OrderResult :=
  if pyTruthy result.article_id = false then
    { result with
      can_resend := false
      validation_reason := "article_id not available para validação de revenue model" }
  else
    match gw.get_product_details (result.article_id.getD "") with
    | none =>
      { result with
        can_resend := false
        validation_reason := "Could not query productDetails to get revenue model" }
    | some product_data =>
      let result :=
        match product_data.journal with
        | some j => { result with revenue_model := j.revenueModel }
        | none => result
      if pyTruthy result.revenue_model = false then
        { result with
          can_resend := false
          validation_reason := "Revenue model not found em productDetails" }
      else
        let vr := validate_revenue_model_rules (result.revenue_model.getD "")
          (result.payment_method.getD "") (result.total_charged.getD 0)
        let result := { result with can_resend := vr.1 }
        if vr.1 then
          if result.is_v041_error then
            { result with
              validation_reason := "✅ CAN RESEND: V041 ignored + " ++ vr.2 }
          else
            { result with validation_reason := "✅ CAN RESEND: " ++ vr.2 }
        else
          { result with validation_reason := "❌ BLOCKED: " ++ vr.2 }

/-- main.py lines 395-491, RULE 2.1: the V041 branch, applied to the
result accumulated so far (with `is_v041_error` already set). -/
def v041_branch (gw : Gateway) (order_id : String) (result : OrderResult) :
    OrderResult :=
  if pyTruthy result.article_id = false then
    { result with
      validation_reason := "Erro V041 detected but article_id not available"
      can_resend := false }
  else
    let other_orders := get_multiple_orders gw (result.article_id.getD "")
    let result := { result with other_orders := other_orders }
    if other_orders = [] then
      { result with
        validation_reason := "V041 error: could not verify other orders for the article"
        can_resend := false }
    else
      let not_canceled := other_orders.filter (not_canceled_filter order_id)
      let result := { result with other_orders_not_canceled := not_canceled.length }
      if not_canceled.length > 0 then
        { result with
          can_resend := false
          validation_reason := "V041 error: " ++ toString not_canceled.length ++
            " non-canceled order(s) detected - requires VIAX review"
          validation_step := "2.1. V041 - Multiple active orders" }
      else
        let canceled_orders := other_orders.filter (canceled_filter order_id)
        if canceled_orders = [] then
          { result with
            can_resend := false
            validation_reason := "V041 error: no canceled order found"
            validation_step := "2.1. V041 - No canceled orders" }
        else
          let has_credit_memo := canceled_orders.any (sibling_has_credit_memo gw)
          let result :=
            { result with canceled_order_has_credit_memo := some has_credit_memo }
          if has_credit_memo = false then
            { result with
              can_resend := false
              validation_reason := "V041 error: canceled order without credit memo - requires VIAX review"
              validation_step := "2.1. V041 - No credit memo" }
          else
            revenue_stage gw
              { result with
                validation_step := "2.1. V041 - Ignored, validating revenue model" }

/-- main.py lines 312-557 `validate_order`: the full decision hierarchy
for one order, against the gateway oracle `gw`. -/
def validate_order (gw : Gateway) (order_id : String) : OrderResult :=
  let result : OrderResult := { order_id := order_id }
  match gw.get_order_details order_id with
  | none =>
    { result with
      error := some "Could not query the order"
      validation_reason := "Error querying ASAT"
      validation_step := "1. Order query" }
  | some order_data =>
    match order_data.orderDetails with
    | none =>
      { result with
        validation_reason := "orderDetails not found na resposta"
        validation_step := "1. Order query" }
    | some order_details =>
      let result := populate result order_data order_details
      let order_history := order_details.orderHistory
      if result.order_status = some "OrderCanceledInAMP" then
        { result with
          can_resend := false
          validation_reason := "Order canceled (OrderCanceledInAMP)"
          validation_step := "1. Canceled status check" }
      else
        let ce := check_error_in_history order_history
        let result := { result with
          has_error := ce.1
          error_code := ce.2.1
          error_description := ce.2.2 }
        if ce.1 then
          if ce.2.1 = some "V041" then
            v041_branch gw order_id
              { result with
                is_v041_error := true
                validation_step := "2. V041 error detection" }
          else
            { result with
              can_resend := false
              validation_reason := "Error detected: " ++ pyOr ce.2.1 "DESCONHECIDO" ++
                " - " ++ pyStr ce.2.2
              validation_step := "2.2. Other error detected" }
        else
          revenue_stage gw
            { result with validation_step := "3. No errors, validating revenue model" }

/-- main.py lines 877-879 and 640-641: in the batch summary an order
counts as blocked by rules iff it cannot be resent and its query-error
marker is falsy. -/
def counted_as_blocked (r : OrderResult) : Bool :=
  !r.can_resend && !pyTruthy r.error

/-- main.py line 879: an order counts as a query error iff its `error`
marker is truthy. -/
def counted_as_query_error (r : OrderResult) : Bool :=
  pyTruthy r.error

/-- The error-event match exactly as the spec words it: the event type
contains the literal `"Error"`, or contains `"error"` after lowering —
the same condition the source tests inline. -/
def is_error_event (e : Event) : Bool :=
  pyContains e.eventType "Error" || pyContains (pyLower e.eventType) "error"

/-- Modelled from claim C6's words, which do not strip: the code is
`"V041"` when the description contains that token, else the text before
the first colon when the description contains a colon and that text's
length is under 10 characters, else absent. -/
def claimed_error_code (event_desc : String) : Option String :=
  if pyContains event_desc "V041" then some "V041"
  else if pyContains event_desc ":" then
    let before := beforeColon event_desc
    if before.length < 10 then some before else none
  else none

/-- `check_error_in_history` exactly as claim C6 describes it: the first
matching event is authoritative, and its code is `claimed_error_code` of
its description. -/
def check_error_claimed (h : List Event) : Bool × Option String × Option String :=
  match h.find? is_error_event with
  | some e => (true, claimed_error_code e.eventDescription, some e.eventDescription)
  | none => (false, none, none)

/-- Claim C6 as amended: as `check_error_claimed`, except the text
before the first colon is stripped of surrounding whitespace before the
length test and before use as the code, as the source does. -/
def check_error_amended (h : List Event) : Bool × Option String × Option String :=
  match h.find? is_error_event with
  | some e => (true, v041_or_colon_code e.eventDescription, some e.eventDescription)
  | none => (false, none, none)

/-- A canceled sibling the credit-memo loop skips (claim C10): its id is
falsy, its own fetch fails, or its response lacks the order-details
section. -/
def skipped_sibling (gw : Gateway) (o : SiblingOrder) : Prop :=
  pyTruthy o.orderUniqueId = false ∨
    gw.get_order_details (pyStr o.orderUniqueId) = none ∨
    ∃ cd, gw.get_order_details (pyStr o.orderUniqueId) = some cd ∧ cd.orderDetails = none

/-! Concrete fixtures used by witnesses and counterexamples. -/

/-- An order response whose history holds exactly a credit-memo
event. -/
def memo_data : OrderData :=
  { orderDetails := some { orderHistory := [{ eventType := "Credit memo created" }] } }

/-- Fixture for C3: a canceled order that also has an error event and
full revenue-model data. -/
def od_c3 : OrderDetailsSection :=
  { orderStatus := some "OrderCanceledInAMP"
    orderHistory := [{ eventType := "Error", eventDescription := "V041: x" }] }

/-- Fixture for C3: the full order response. -/
def d_c3 : OrderData :=
  { orderDetails := some od_c3
    article := some { id := some "PDART3" }
    paymentDetails := some { paymentMethod := some "CreditCard", totalChargedAmount := some 100 } }

/-- Fixture gateway for C3. -/
def gw_c3 : Gateway :=
  { get_order_details := fun oid => if oid = "O1" then some d_c3 else none
    get_product_details := fun _ => some { journal := some { revenueModel := some "OA" } }
    fetch_orders_payload := fun _ => [] }

/-- Fixture for the C4 counterexample: a non-canceled order whose first
error event has a code-free description. -/
def od_c4x : OrderDetailsSection :=
  { orderStatus := some "OrderShipped"
    orderHistory := [{ eventType := "Error", eventDescription := "boom" }] }

/-- Fixture for the C4 counterexample: the full order response. -/
def d_c4x : OrderData := { orderDetails := some od_c4x }

/-- Fixture gateway for the C4 counterexample. -/
def gw_c4x : Gateway :=
  { get_order_details := fun oid => if oid = "O1" then some d_c4x else none
    get_product_details := fun _ => none
    fetch_orders_payload := fun _ => [] }

/-- Fixture for the C4 witness: a non-V041 coded error, with product
details available that must never be consulted. -/
def od_c4w : OrderDetailsSection :=
  { orderStatus := some "OrderShipped"
    orderHistory := [{ eventType := "Order Error", eventDescription := "PX123: payment failed" }] }

/-- Fixture for the C4 witness: the full order response. -/
def d_c4w : OrderData := { orderDetails := some od_c4w }

/-- Fixture gateway for the C4 witness. -/
def gw_c4w : Gateway :=
  { get_order_details := fun oid => if oid = "O1" then some d_c4w else none
    get_product_details := fun _ => some { journal := some { revenueModel := some "OO" } }
    fetch_orders_payload := fun _ => [] }

/-- Fixture gateway for C7: every order fetch is unreachable. -/
def gw_c7n : Gateway :=
  { get_order_details := fun _ => none
    get_product_details := fun _ => none
    fetch_orders_payload := fun _ => [] }

/-- Fixture for C7: a response carrying no `orderDetails` section. -/
def d_c7m : OrderData := {}

/-- Fixture gateway for C7: every order fetch answers a response that
lacks the `orderDetails` section. -/
def gw_c7m : Gateway :=
  { get_order_details := fun _ => some d_c7m
    get_product_details := fun _ => none
    fetch_orders_payload := fun _ => [] }

/-- Fixture for C1: a V041 order whose article has one canceled sibling
with a credit memo and one active sibling. -/
def od_c1 : OrderDetailsSection :=
  { orderStatus := some "OrderShipped"
    orderHistory := [{ eventType := "Error", eventDescription := "V041: duplicate order" }] }

/-- Fixture for C1: the full order response. -/
def d_c1 : OrderData :=
  { orderDetails := some od_c1, article := some { id := some "PDART1" } }

/-- Fixture for C1: the sibling list — a canceled sibling (which has a
credit memo) and a non-canceled one. -/
def sibs_c1 : List SiblingOrder :=
  [ { orderUniqueId := some "O2", orderStatus := some "OrderCanceledInAMP", inCancelledState := true },
    { orderUniqueId := some "O3", orderStatus := some "OrderShipped" } ]

/-- Fixture gateway for C1. -/
def gw_c1w : Gateway :=
  { get_order_details := fun oid =>
      if oid = "O1" then some d_c1 else if oid = "O2" then some memo_data else none
    get_product_details := fun _ => none
    fetch_orders_payload := fun aid => if aid = "ART1" then sibs_c1 else [] }

/-- Fixture for C2 (the spec's scenario 4): a V041 order, all siblings
canceled, the second canceled sibling carrying the credit memo, revenue
model OA with payment method CreditCard. -/
def od_c2 : OrderDetailsSection :=
  { orderStatus := some "OrderShipped"
    orderHistory := [{ eventType := "Error", eventDescription := "V041 duplicate" }] }

/-- Fixture for C2: the full order response. -/
def d_c2 : OrderData :=
  { orderDetails := some od_c2
    article := some { id := some "PDART2" }
    paymentDetails := some { paymentMethod := some "CreditCard", totalChargedAmount := some 0 } }

/-- Fixture for C2: two canceled siblings. -/
def sibs_c2 : List SiblingOrder :=
  [ { orderUniqueId := some "O2", orderStatus := some "OrderCanceledInAMP", inCancelledState := true },
    { orderUniqueId := some "O4", orderStatus := some "OrderCanceledInAMP", inCancelledState := true } ]

/-- Fixture gateway for C2: the first canceled sibling has no credit
memo, the second has one. -/
def gw_c2w : Gateway :=
  { get_order_details := fun oid =>
      if oid = "O1" then some d_c2
      else if oid = "O2" then
        some { orderDetails := some { orderHistory := [{ eventType := "OrderShipped" }] } }
      else if oid = "O4" then some memo_data
      else none
    get_product_details := fun aid =>
      if aid = "PDART2" then some { journal := some { revenueModel := some "OA" } } else none
    fetch_orders_payload := fun aid => if aid = "ART2" then sibs_c2 else [] }

/-- Fixture for the C8 counterexample: a waived V041 order whose revenue
model then denies (OO with zero charge). -/
def od_c8 : OrderDetailsSection :=
  { orderStatus := some "OrderShipped"
    orderHistory := [{ eventType := "Error", eventDescription := "V041 duplicate" }] }

/-- Fixture for the C8 counterexample: the full order response. -/
def d_c8x : OrderData :=
  { orderDetails := some od_c8
    article := some { id := some "PDART8" }
    paymentDetails := some { paymentMethod := some "Invoice", totalChargedAmount := some 0 } }

/-- Fixture for C8: a single canceled sibling holding the credit
memo. -/
def sibs_c8 : List SiblingOrder :=
  [ { orderUniqueId := some "O2", orderStatus := some "OrderCanceledInAMP", inCancelledState := true } ]

/-- Fixture gateway for the C8 counterexample. -/
def gw_c8x : Gateway :=
  { get_order_details := fun oid =>
      if oid = "O1" then some d_c8x else if oid = "O2" then some memo_data else none
    get_product_details := fun aid =>
      if aid = "PDART8" then some { journal := some { revenueModel := some "OO" } } else none
    fetch_orders_payload := fun aid => if aid = "ART8" then sibs_c8 else [] }

/-- Fixture for the C8 witness: as the counterexample but the revenue
model allows (OA + CreditCard). -/
def d_c8w : OrderData :=
  { orderDetails := some od_c8
    article := some { id := some "PDART8" }
    paymentDetails := some { paymentMethod := some "CreditCard", totalChargedAmount := some 250 } }

/-- Fixture gateway for the C8 witness. -/
def gw_c8w : Gateway :=
  { get_order_details := fun oid =>
      if oid = "O1" then some d_c8w else if oid = "O2" then some memo_data else none
    get_product_details := fun aid =>
      if aid = "PDART8" then some { journal := some { revenueModel := some "OA" } } else none
    fetch_orders_payload := fun aid => if aid = "ART8" then sibs_c8 else [] }

/-- Fixture for C10: a V041 order whose canceled siblings are all
skipped — one with an unreachable fetch, one with no id. -/
def od_c10 : OrderDetailsSection :=
  { orderStatus := some "OrderShipped"
    orderHistory := [{ eventType := "Error", eventDescription := "V041 duplicate" }] }

/-- Fixture for C10: the full order response. -/
def d_c10 : OrderData :=
  { orderDetails := some od_c10, article := some { id := some "PDARTX" } }

/-- Fixture for C10: two canceled siblings, one without an id. -/
def sibs_c10 : List SiblingOrder :=
  [ { orderUniqueId := some "O2", orderStatus := some "OrderCanceledInAMP", inCancelledState := true },
    { orderUniqueId := none, orderStatus := some "OrderCanceledInAMP", inCancelledState := true } ]

/-- Fixture gateway for C10: the sibling fetch of `"O2"` is
unreachable. -/
def gw_c10w : Gateway :=
  { get_order_details := fun oid => if oid = "O1" then some d_c10 else none
    get_product_details := fun _ => none
    fetch_orders_payload := fun aid => if aid = "ARTX" then sibs_c10 else [] }

/-- C1: for a V041 order with a non-empty sibling set, a non-empty
not-canceled partition (id differs under string comparison, and status
is not the canceled status or the explicit flag is unset) yields a
terminal deny whose reason cites the partition's count, with step
"2.1. V041 - Multiple active orders" — for every gateway, hence even
when a canceled sibling with a credit memo also exists. -/
theorem v041_active_siblings_deny (gw : Gateway) (oid : String) (d : OrderData)
    (od : OrderDetailsSection) (a : ArticleSection) (aid desc : String)
    (sibs : List SiblingOrder)
    (h1 : gw.get_order_details oid = some d)
    (h2 : d.orderDetails = some od)
    (h3 : od.orderStatus ≠ some "OrderCanceledInAMP")
    (h4 : check_error_in_history od.orderHistory = (true, some "V041", some desc))
    (h5 : d.article = some a) (h6 : a.id = some aid) (h7 : aid ≠ "")
    (h8 : gw.fetch_orders_payload (clean_article_id aid) = sibs)
    (h9 : sibs ≠ [])
    (h10 : 0 < (sibs.filter (not_canceled_filter oid)).length) :
    (validate_order gw oid).can_resend = false ∧
    (validate_order gw oid).validation_reason =
      "V041 error: " ++ toString (sibs.filter (not_canceled_filter oid)).length ++
        " non-canceled order(s) detected - requires VIAX review" ∧
    (validate_order gw oid).validation_step = "2.1. V041 - Multiple active orders" := by
  simp [validate_order, h1, h2, populate, h3, h4, h5, h6, h7, v041_branch, pyTruthy,
    get_multiple_orders, h8, h9, h10]

/-- C1 witness: one active sibling alongside a canceled sibling that
does carry a credit memo still denies with the count-citing reason. -/
theorem v041_active_siblings_deny_witness :
    (validate_order gw_c1w "O1").can_resend = false ∧
    (validate_order gw_c1w "O1").validation_reason =
      "V041 error: 1 non-canceled order(s) detected - requires VIAX review" ∧
    (validate_order gw_c1w "O1").validation_step = "2.1. V041 - Multiple active orders" ∧
    sibling_has_credit_memo gw_c1w
      { orderUniqueId := some "O2", orderStatus := some "OrderCanceledInAMP",
        inCancelledState := true } = true := by
  have h := v041_active_siblings_deny gw_c1w "O1" d_c1 od_c1 { id := some "PDART1" }
    "PDART1" "V041: duplicate order" sibs_c1 (by decide) (by decide) (by decide)
    (by decide) (by decide) (by decide) (by decide) (by decide) (by decide) (by decide)
  exact ⟨h.1, by rw [h.2.1]; decide, h.2.2, by decide⟩

/-- C2: for a V041 order whose not-canceled partition is empty — if the
canceled partition is empty, terminal deny "no canceled order found"; if
no canceled sibling has a credit memo (each tested through its own
fetched history), terminal deny "canceled order without credit memo";
if one has, evaluation falls through to the revenue-model stage with the
V041 flag recorded as waived. -/
theorem v041_canceled_siblings_resolution (gw : Gateway) (oid : String) (d : OrderData)
    (od : OrderDetailsSection) (a : ArticleSection) (aid desc : String)
    (sibs : List SiblingOrder)
    (h1 : gw.get_order_details oid = some d)
    (h2 : d.orderDetails = some od)
    (h3 : od.orderStatus ≠ some "OrderCanceledInAMP")
    (h4 : check_error_in_history od.orderHistory = (true, some "V041", some desc))
    (h5 : d.article = some a) (h6 : a.id = some aid) (h7 : aid ≠ "")
    (h8 : gw.fetch_orders_payload (clean_article_id aid) = sibs)
    (h9 : sibs ≠ [])
    (h10 : sibs.filter (not_canceled_filter oid) = []) :
    (sibs.filter (canceled_filter oid) = [] →
      (validate_order gw oid).can_resend = false ∧
      (validate_order gw oid).validation_reason = "V041 error: no canceled order found" ∧
      (validate_order gw oid).validation_step = "2.1. V041 - No canceled orders") ∧
    (sibs.filter (canceled_filter oid) ≠ [] →
      (sibs.filter (canceled_filter oid)).any (sibling_has_credit_memo gw) = false →
      (validate_order gw oid).can_resend = false ∧
      (validate_order gw oid).validation_reason =
        "V041 error: canceled order without credit memo - requires VIAX review" ∧
      (validate_order gw oid).validation_step = "2.1. V041 - No credit memo" ∧
      (validate_order gw oid).canceled_order_has_credit_memo = some false) ∧
    ((sibs.filter (canceled_filter oid)).any (sibling_has_credit_memo gw) = true →
      ∃ pre, validate_order gw oid = revenue_stage gw pre ∧
        pre.is_v041_error = true ∧
        pre.canceled_order_has_credit_memo = some true ∧
        pre.validation_step = "2.1. V041 - Ignored, validating revenue model") := by
  refine ⟨?_, ?_, ?_⟩
  · intro hcs
    simp [validate_order, h1, h2, populate, h3, h4, h5, h6, h7, v041_branch, pyTruthy,
      get_multiple_orders, h8, h9, h10, hcs]
  · intro hcs hany
    simp [validate_order, h1, h2, populate, h3, h4, h5, h6, h7, v041_branch, pyTruthy,
      get_multiple_orders, h8, h9, h10, hcs, hany]
  · intro hany
    have hcs : sibs.filter (canceled_filter oid) ≠ [] := by
      intro hh; rw [hh] at hany; simp at hany
    simp [validate_order, h1, h2, populate, h3, h4, h5, h6, h7, v041_branch, pyTruthy,
      get_multiple_orders, h8, h9, h10, hcs, hany]
    exact ⟨_, rfl, by simp, by simp, by simp⟩

/-- C2 witness: the spec's scenario 4 — all siblings canceled, the
second canceled sibling holds the credit memo, revenue model OA with
payment method CreditCard: the verdict allows with the waived-V041
reason. -/
theorem v041_canceled_siblings_resolution_witness :
    (validate_order gw_c2w "O1").canceled_order_has_credit_memo = some true ∧
    (validate_order gw_c2w "O1").validation_step =
      "2.1. V041 - Ignored, validating revenue model" ∧
    (validate_order gw_c2w "O1").is_v041_error = true ∧
    (validate_order gw_c2w "O1").can_resend = true ∧
    (validate_order gw_c2w "O1").validation_reason =
      "✅ CAN RESEND: V041 ignored + OA + CreditCard (regardless of totalChargedAmount)" := by
  obtain ⟨pre, hpre, hflag, hcm, hstep⟩ :=
    (v041_canceled_siblings_resolution gw_c2w "O1" d_c2 od_c2 { id := some "PDART2" }
      "PDART2" "V041 duplicate" sibs_c2 (by decide) (by decide) (by decide) (by decide)
      (by decide) (by decide) (by decide) (by decide) (by decide) (by decide)).2.2 (by decide)
  exact ⟨by decide, by decide, by decide, by decide, by decide⟩

/-- C3: a successfully fetched order whose status equals
"OrderCanceledInAMP" is denied with reason
"Order canceled (OrderCanceledInAMP)" and step "1. Canceled status
check", irrespective of its history, errors, or revenue model (the
gateway and the rest of the response are arbitrary). -/
theorem canceled_status_deny (gw : Gateway) (oid : String) (d : OrderData)
    (od : OrderDetailsSection)
    (h1 : gw.get_order_details oid = some d)
    (h2 : d.orderDetails = some od)
    (h3 : od.orderStatus = some "OrderCanceledInAMP") :
    (validate_order gw oid).can_resend = false ∧
    (validate_order gw oid).validation_reason = "Order canceled (OrderCanceledInAMP)" ∧
    (validate_order gw oid).validation_step = "1. Canceled status check" := by
  simp [validate_order, h1, h2, populate, h3]

/-- C3 witness: a canceled order that also carries an error event and
full revenue-model data is still denied by the cancellation check. -/
theorem canceled_status_deny_witness :
    (validate_order gw_c3 "O1").can_resend = false ∧
    (validate_order gw_c3 "O1").validation_reason = "Order canceled (OrderCanceledInAMP)" ∧
    (validate_order gw_c3 "O1").validation_step = "1. Canceled status check" :=
  canceled_status_deny gw_c3 "O1" d_c3 od_c3 (by decide) (by decide) (by decide)

/-- C4 counterexample: with the first error event's description "boom"
(no code extractable), the reason is
"Error detected: DESCONHECIDO - boom" — it does not contain the literal
"unknown" the claim requires. -/
theorem non_v041_unknown_counterexample :
    (validate_order gw_c4x "O1").has_error = true ∧
    (validate_order gw_c4x "O1").error_code = none ∧
    (validate_order gw_c4x "O1").validation_reason = "Error detected: DESCONHECIDO - boom" ∧
    pyContains (validate_order gw_c4x "O1").validation_reason "unknown" = false := by
  exact ⟨by decide, by decide, by decide, by decide⟩

/-- C4 (amended): a non-canceled order whose first error event yields a
code other than "V041" (including an absent one) is terminally denied
with reason "Error detected: " plus the raw code — "DESCONHECIDO" when
the code is absent or empty — and the raw description, step
"2.2. Other error detected"; the revenue-model stage never executes:
no revenue model is recorded and the result is unchanged under any
product-details oracle. -/
theorem non_v041_error_deny (gw : Gateway) (oid : String) (d : OrderData)
    (od : OrderDetailsSection) (code : Option String) (desc : String)
    (h1 : gw.get_order_details oid = some d)
    (h2 : d.orderDetails = some od)
    (h3 : od.orderStatus ≠ some "OrderCanceledInAMP")
    (h4 : check_error_in_history od.orderHistory = (true, code, some desc))
    (h5 : code ≠ some "V041") :
    (validate_order gw oid).can_resend = false ∧
    (validate_order gw oid).validation_reason =
      "Error detected: " ++ pyOr code "DESCONHECIDO" ++ " - " ++ desc ∧
    (validate_order gw oid).validation_step = "2.2. Other error detected" ∧
    (validate_order gw oid).revenue_model = none ∧
    (∀ pd, validate_order { gw with get_product_details := pd } oid = validate_order gw oid) := by
  simp [validate_order, h1, h2, populate, h3, h4, h5, pyStr]

/-- C4 witness: a coded non-V041 error ("PX123") denies with the raw
code and description in the reason. -/
theorem non_v041_error_deny_witness :
    (validate_order gw_c4w "O1").can_resend = false ∧
    (validate_order gw_c4w "O1").validation_reason =
      "Error detected: PX123 - PX123: payment failed" ∧
    (validate_order gw_c4w "O1").validation_step = "2.2. Other error detected" := by
  have h := non_v041_error_deny gw_c4w "O1" d_c4w od_c4w (some "PX123")
    "PX123: payment failed" (by decide) (by decide) (by decide) (by decide) (by decide)
  exact ⟨h.1, by rw [h.2.1]; decide, h.2.2.1⟩

/-- C5: the revenue-model rule set is a pure total Lean function; it
denies exactly for revenue model "OO" with zero charge and for "OA" with
payment method "Invoice" and zero charge, with the two exact deny
reasons; every other combination, unknown models included, allows. -/
theorem revenue_rules_deny_iff (rm pm : String) (tc : Int) :
    ((validate_revenue_model_rules rm pm tc).1 = false ↔
      (rm = "OO" ∧ tc = 0) ∨ (rm = "OA" ∧ pm = "Invoice" ∧ tc = 0)) ∧
    (rm = "OO" ∧ tc = 0 →
      (validate_revenue_model_rules rm pm tc).2 = "OO with totalChargedAmount = 0") ∧
    (rm = "OA" ∧ pm = "Invoice" ∧ tc = 0 →
      (validate_revenue_model_rules rm pm tc).2 = "OA + Invoice with totalChargedAmount = 0") := by
  unfold validate_revenue_model_rules
  split_ifs <;> simp_all

/-- C5 witness: the denying OA + Invoice row at zero charge. -/
theorem revenue_rules_deny_iff_witness :
    ((validate_revenue_model_rules "OA" "Invoice" 0).1 = false ↔
      ("OA" = "OO" ∧ (0 : Int) = 0) ∨
        ("OA" = "OA" ∧ "Invoice" = "Invoice" ∧ (0 : Int) = 0)) ∧
    ("OA" = "OO" ∧ (0 : Int) = 0 →
      (validate_revenue_model_rules "OA" "Invoice" 0).2 = "OO with totalChargedAmount = 0") ∧
    ("OA" = "OA" ∧ "Invoice" = "Invoice" ∧ (0 : Int) = 0 →
      (validate_revenue_model_rules "OA" "Invoice" 0).2 =
        "OA + Invoice with totalChargedAmount = 0") :=
  revenue_rules_deny_iff "OA" "Invoice" 0

/-- C6 counterexample: on the description "AB : x" the source strips the
text before the colon and returns code "AB", while the claim's
unstripped reading yields "AB " — so `check_error_in_history` differs
from the claim's description at this input. -/
theorem check_error_unstripped_counterexample :
    check_error_in_history [{ eventType := "Error", eventDescription := "AB : x" }] =
      (true, some "AB", some "AB : x") ∧
    check_error_claimed [{ eventType := "Error", eventDescription := "AB : x" }] =
      (true, some "AB ", some "AB : x") ∧
    check_error_in_history [{ eventType := "Error", eventDescription := "AB : x" }] ≠
      check_error_claimed [{ eventType := "Error", eventDescription := "AB : x" }] := by
  exact ⟨by decide, by decide, by decide⟩

/-- C6 (amended): `check_error_in_history` behaves exactly as the claim
describes once the colon-extracted text is stripped of surrounding
whitespace before the length test and before use as the code: the first
matching event (type contains "Error", or "error" case-insensitively)
is authoritative, later events are never examined, and no match yields
`(false, none, none)`. -/
theorem check_error_first_match_spec (h : List Event) :
    check_error_in_history h = check_error_amended h := by
  induction h with
  | nil => rfl
  | cons e t ih =>
    have hcond : (pyContains e.eventType "Error" ||
        pyContains (pyLower e.eventType) "error") = is_error_event e := rfl
    rw [check_error_in_history, hcond]
    cases he : is_error_event e
    · simpa [check_error_amended, List.find?_cons, he] using ih
    · simp [check_error_amended, List.find?_cons, he]

/-- C7 counterexample: a fetched response lacking the order-details
section gets step "1. Order query" but no query-failure marker, and it
is counted among the rule denials of the batch summary — contradicting
the claim that such an order is recorded only as a query failure. -/
theorem order_query_marker_counterexample :
    (validate_order gw_c7m "O1").validation_step = "1. Order query" ∧
    (validate_order gw_c7m "O1").error = none ∧
    (validate_order gw_c7m "O1").can_resend = false ∧
    counted_as_blocked (validate_order gw_c7m "O1") = true := by
  exact ⟨by decide, by decide, by decide, by decide⟩

/-- C7 (amended): an unreachable fetch is a query failure — step
"1. Order query", error marker set, excluded from the blocked-by-rules
count and counted as a query error; a response lacking the order-details
section also gets step "1. Order query" and forms no verdict, but sets
no failure marker and is counted among rule denials. -/
theorem order_query_outcomes (gw : Gateway) (oid : String) :
    (gw.get_order_details oid = none →
      (validate_order gw oid).validation_step = "1. Order query" ∧
      (validate_order gw oid).validation_reason = "Error querying ASAT" ∧
      (validate_order gw oid).error = some "Could not query the order" ∧
      counted_as_blocked (validate_order gw oid) = false ∧
      counted_as_query_error (validate_order gw oid) = true) ∧
    (∀ d, gw.get_order_details oid = some d → d.orderDetails = none →
      (validate_order gw oid).validation_step = "1. Order query" ∧
      (validate_order gw oid).validation_reason = "orderDetails not found na resposta" ∧
      (validate_order gw oid).error = none ∧
      (validate_order gw oid).can_resend = false ∧
      counted_as_blocked (validate_order gw oid) = true ∧
      counted_as_query_error (validate_order gw oid) = false) := by
  constructor
  · intro h
    simp [validate_order, h, counted_as_blocked, counted_as_query_error, pyTruthy]
  · intro d hd hod
    simp [validate_order, hd, hod, counted_as_blocked, counted_as_query_error, pyTruthy]

/-- C7 witness: the unreachable-fetch gateway is recorded as a query
error and not blocked; the missing-section gateway is counted among
rule denials with no marker. -/
theorem order_query_outcomes_witness :
    (validate_order gw_c7n "O1").error = some "Could not query the order" ∧
    counted_as_blocked (validate_order gw_c7n "O1") = false ∧
    counted_as_query_error (validate_order gw_c7n "O1") = true ∧
    (validate_order gw_c7m "O1").error = none ∧
    counted_as_blocked (validate_order gw_c7m "O1") = true := by
  have hn := (order_query_outcomes gw_c7n "O1").1 rfl
  have hm := (order_query_outcomes gw_c7m "O1").2 d_c7m rfl rfl
  exact ⟨hn.2.2.1, hn.2.2.2.1, hn.2.2.2.2, hm.2.2.1, hm.2.2.2.2.1⟩

/-- C8 counterexample: a waived V041 order whose revenue model then
denies (OO at zero charge) gets the bare reason
"❌ BLOCKED: OO with totalChargedAmount = 0", with no waiver tag —
the claim's "both terminal outcomes" fails on the deny side. -/
theorem waiver_tag_deny_counterexample :
    (validate_order gw_c8x "O1").is_v041_error = true ∧
    (validate_order gw_c8x "O1").canceled_order_has_credit_memo = some true ∧
    (validate_order gw_c8x "O1").can_resend = false ∧
    (validate_order gw_c8x "O1").validation_reason =
      "❌ BLOCKED: OO with totalChargedAmount = 0" ∧
    pyContains (validate_order gw_c8x "O1").validation_reason "V041" = false := by
  exact ⟨by decide, by decide, by decide, by decide, by decide⟩

/-- C8 (amended): when the V041 error was waived and the revenue-model
stage reaches the rule set, the reason is prefixed with the waiver tag
only in the allow outcome ("✅ CAN RESEND: V041 ignored + ..."); in the
deny outcome it is "❌ BLOCKED: ..." with no waiver indication. -/
theorem waiver_tag_only_on_allow (gw : Gateway) (oid : String) (d : OrderData)
    (od : OrderDetailsSection) (a : ArticleSection) (aid desc : String)
    (sibs : List SiblingOrder) (pay : PaymentSection) (pm : String) (tc : Int)
    (pd : ProductData) (pj : ProductJournal) (rm : String)
    (h1 : gw.get_order_details oid = some d)
    (h2 : d.orderDetails = some od)
    (h3 : od.orderStatus ≠ some "OrderCanceledInAMP")
    (h4 : check_error_in_history od.orderHistory = (true, some "V041", some desc))
    (h5 : d.article = some a) (h6 : a.id = some aid) (h7 : aid ≠ "")
    (h8 : gw.fetch_orders_payload (clean_article_id aid) = sibs) (h9 : sibs ≠ [])
    (h10 : sibs.filter (not_canceled_filter oid) = [])
    (h11 : (sibs.filter (canceled_filter oid)).any (sibling_has_credit_memo gw) = true)
    (h12 : d.paymentDetails = some pay) (h13 : pay.paymentMethod = some pm)
    (h14 : pay.totalChargedAmount = some tc)
    (h15 : gw.get_product_details aid = some pd) (h16 : pd.journal = some pj)
    (h17 : pj.revenueModel = some rm) (h18 : rm ≠ "") :
    ((validate_revenue_model_rules rm pm tc).1 = true →
      (validate_order gw oid).can_resend = true ∧
      (validate_order gw oid).validation_reason =
        "✅ CAN RESEND: V041 ignored + " ++ (validate_revenue_model_rules rm pm tc).2) ∧
    ((validate_revenue_model_rules rm pm tc).1 = false →
      (validate_order gw oid).can_resend = false ∧
      (validate_order gw oid).validation_reason =
        "❌ BLOCKED: " ++ (validate_revenue_model_rules rm pm tc).2) := by
  have hcs : sibs.filter (canceled_filter oid) ≠ [] := by
    intro hh; rw [hh] at h11; simp at h11
  constructor <;> intro hv <;>
    simp [validate_order, h1, h2, populate, h3, h4, h5, h6, h7, v041_branch, pyTruthy,
      get_multiple_orders, h8, h9, h10, hcs, h11, revenue_stage, h12, h13, h14, h15,
      h16, h17, h18, hv]

/-- C8 witness: the allow outcome of a waived V041 order carries the
waiver prefix. -/
theorem waiver_tag_only_on_allow_witness :
    (validate_order gw_c8w "O1").can_resend = true ∧
    (validate_order gw_c8w "O1").validation_reason =
      "✅ CAN RESEND: V041 ignored + OA + CreditCard (regardless of totalChargedAmount)" := by
  have h := (waiver_tag_only_on_allow gw_c8w "O1" d_c8w od_c8 { id := some "PDART8" }
    "PDART8" "V041 duplicate" sibs_c8
    { paymentMethod := some "CreditCard", totalChargedAmount := some 250 } "CreditCard" 250
    { journal := some { revenueModel := some "OA" } } { revenueModel := some "OA" } "OA"
    (by decide) (by decide) (by decide) (by decide) (by decide) (by decide) (by decide)
    (by decide) (by decide) (by decide) (by decide) (by decide) (by decide) (by decide)
    (by decide) (by decide) (by decide) (by decide)).1 (by decide)
  exact ⟨h.1, by rw [h.2]; decide⟩

/-- C9 (code bug): the script removes every occurrence of "PD" from the
article id before the sibling lookup, not just a leading prefix token —
on "PD123PD4" it queries with "1234" where the claim (and the code's own
comment) require "123PD4". -/
theorem clean_article_id_strips_all_pd :
    clean_article_id "PD123PD4" = "1234" ∧ clean_article_id "PD123PD4" ≠ "123PD4" := by
  exact ⟨by decide, by decide⟩

/-- A canceled sibling satisfying the skip condition of claim C10 never
contributes a credit memo. -/
theorem skipped_sibling_no_memo (gw : Gateway) (o : SiblingOrder)
    (h : skipped_sibling gw o) : sibling_has_credit_memo gw o = false := by
  unfold sibling_has_credit_memo
  rcases h with h | h | ⟨cd, hcd, hod⟩
  · simp [h]
  · by_cases ht : pyTruthy o.orderUniqueId <;> simp [ht, h]
  · by_cases ht : pyTruthy o.orderUniqueId <;> simp [ht, hcd, hod]

/-- C10: during the credit-memo scan, canceled siblings whose id is
falsy, whose fetch fails, or whose response lacks the order-details
section are treated as having no credit memo; when every canceled
sibling is skipped this way the outcome is the rule denial
"canceled order without credit memo" — counted as blocked, never as a
query failure. -/
theorem v041_skipped_siblings_rule_denial (gw : Gateway) (oid : String) (d : OrderData)
    (od : OrderDetailsSection) (a : ArticleSection) (aid desc : String)
    (sibs : List SiblingOrder)
    (h1 : gw.get_order_details oid = some d)
    (h2 : d.orderDetails = some od)
    (h3 : od.orderStatus ≠ some "OrderCanceledInAMP")
    (h4 : check_error_in_history od.orderHistory = (true, some "V041", some desc))
    (h5 : d.article = some a) (h6 : a.id = some aid) (h7 : aid ≠ "")
    (h8 : gw.fetch_orders_payload (clean_article_id aid) = sibs)
    (h9 : sibs ≠ [])
    (h10 : sibs.filter (not_canceled_filter oid) = [])
    (h11 : sibs.filter (canceled_filter oid) ≠ [])
    (h12 : ∀ o ∈ sibs.filter (canceled_filter oid), skipped_sibling gw o) :
    (∀ o ∈ sibs.filter (canceled_filter oid), sibling_has_credit_memo gw o = false) ∧
    (validate_order gw oid).can_resend = false ∧
    (validate_order gw oid).error = none ∧
    (validate_order gw oid).validation_reason =
      "V041 error: canceled order without credit memo - requires VIAX review" ∧
    (validate_order gw oid).validation_step = "2.1. V041 - No credit memo" ∧
    counted_as_blocked (validate_order gw oid) = true ∧
    counted_as_query_error (validate_order gw oid) = false := by
  have hmemo : ∀ o ∈ sibs.filter (canceled_filter oid), sibling_has_credit_memo gw o = false :=
    fun o ho => skipped_sibling_no_memo gw o (h12 o ho)
  have hany : (sibs.filter (canceled_filter oid)).any (sibling_has_credit_memo gw) = false := by
    rw [List.any_eq_false]
    intro o ho
    simp [hmemo o ho]
  refine ⟨hmemo, ?_, ?_, ?_, ?_, ?_, ?_⟩ <;>
    simp [validate_order, h1, h2, populate, h3, h4, h5, h6, h7, v041_branch, pyTruthy,
      get_multiple_orders, h8, h9, h10, h11, hany, counted_as_blocked,
      counted_as_query_error]

/-- C10 witness: both canceled siblings are skipped — one has no id,
the other an unreachable fetch — and the order is denied by rule, not
recorded as a query failure. -/
theorem v041_skipped_siblings_rule_denial_witness :
    (validate_order gw_c10w "O1").can_resend = false ∧
    (validate_order gw_c10w "O1").error = none ∧
    (validate_order gw_c10w "O1").validation_reason =
      "V041 error: canceled order without credit memo - requires VIAX review" ∧
    counted_as_blocked (validate_order gw_c10w "O1") = true := by
  have h12 : ∀ o ∈ sibs_c10.filter (canceled_filter "O1"), skipped_sibling gw_c10w o := by
    intro o ho
    have he : sibs_c10.filter (canceled_filter "O1") = sibs_c10 := by decide
    rw [he] at ho
    simp only [sibs_c10, List.mem_cons, List.not_mem_nil, or_false] at ho
    rcases ho with rfl | rfl
    · exact Or.inr (Or.inl (by decide))
    · exact Or.inl (by decide)
  have h := v041_skipped_siblings_rule_denial gw_c10w "O1" d_c10 od_c10
    { id := some "PDARTX" } "PDARTX" "V041 duplicate" sibs_c10 (by decide) (by decide)
    (by decide) (by decide) (by decide) (by decide) (by decide) (by decide) (by decide)
    (by decide) (by decide) h12
  exact ⟨h.2.1, h.2.2.1, h.2.2.2.1, h.2.2.2.2.2.1⟩

/-- C6 witness: the amended description agrees with the source on a
history whose first error event has a colon-coded description. -/
theorem check_error_first_match_spec_witness :
    check_error_in_history [{ eventType := "error log", eventDescription := "X12: fail" }] =
      check_error_amended [{ eventType := "error log", eventDescription := "X12: fail" }] :=
  check_error_first_match_spec [{ eventType := "error log", eventDescription := "X12: fail" }]
